import Mathlib

/-!
Verification development for the StudyBuddy roadmap-generator backend.

Shallow embedding of the core logic:
- Roadmap.createFromRAG (response normalizer, backend/models/Roadmap.js)
- Progress.markComplete / Progress.getProgressStats (backend/models/Progress.js)
- Chat.addMessage / Chat.shouldGenerateRoadmap and the pre-save hook
  (backend/models/Chat.js)
- the message route POST /api/chat/:chatId/message (backend/routes/chat.js)
- DELETE /api/roadmap/:id (backend/routes/roadmap.js)

Machine integers and dates are modelled as Nat, MongoDB ObjectIds as Nat,
JavaScript strings as String.  The JavaScript a || b fallback chain is
modelled by jsOrStr / jsOrNat, which treat the empty string and 0 as falsy
exactly as JavaScript does for the field types involved.
-/

namespace StudyBuddy

/-- JavaScript s || d for a possibly absent string field: an absent field and
the empty string are falsy. -/
def jsOrStr (a : Option String) (d : String) : String :=
  match a with
  | some s => if s = "" then d else s
  | none => d

/-- JavaScript a || b || d for two possibly absent string fields
(snake_case variant first, then camelCase variant, then the default). -/
def jsOrStr2 (a b : Option String) (d : String) : String :=
  jsOrStr a (jsOrStr b d)

/-- JavaScript n || d for a possibly absent numeric field: an absent field and
0 are falsy. -/
def jsOrNat (a : Option Nat) (d : Nat) : Nat :=
  match a with
  | some n => if n = 0 then d else n
  | none => d

/-- JavaScript a || b || d for two possibly absent numeric fields. -/
def jsOrNat2 (a b : Option Nat) (d : Nat) : Nat :=
  jsOrNat a (jsOrNat b d)

/-- JavaScript Array.prototype.map with the element index as second callback
argument, starting the index at i. -/
def mapIdxFrom (f : Nat → α → β) : Nat → List α → List β
  | _, [] => []
  | i, a :: as => f i a :: mapIdxFrom f (i + 1) as

/-- JavaScript arr.map((x, idx) => f idx x). -/
def jsMapIdx (f : Nat → α → β) (l : List α) : List β :=
  mapIdxFrom f 0 l

/-! ## Raw Generation Service payload (the RAG response consumed by
Roadmap.createFromRAG).  Every field may be absent, and numeric/string
fields come in snake_case and camelCase variants, as in the source. -/

structure RagResource where
  title : Option String := none
  rtype : Option String := none
  url : Option String := none
  platform : Option String := none
deriving DecidableEq

structure RagTopic where
  id : Option String := none
  topicId : Option String := none
  topic : Option String := none
  description : Option String := none
  difficulty : Option String := none
  estimated_hours : Option Nat := none
  estimatedHours : Option Nat := none
  prerequisites : Option (List String) := none
  resources : Option (List RagResource) := none
  order : Option Nat := none
deriving DecidableEq

structure RagPhase where
  phase_number : Option Nat := none
  phaseNumber : Option Nat := none
  phase_name : Option String := none
  phaseName : Option String := none
  description : Option String := none
  total_hours : Option Nat := none
  totalHours : Option Nat := none
  topics : Option (List RagTopic) := none
deriving DecidableEq

structure RagMetadata where
  query : Option String := none
  domain : Option String := none
  mode : Option String := none
  source : Option String := none
deriving DecidableEq

structure RagResponse where
  title : Option String := none
  description : Option String := none
  ai_summary : Option String := none
  aiSummary : Option String := none
  total_topics : Option Nat := none
  totalTopics : Option Nat := none
  total_hours : Option Nat := none
  totalHours : Option Nat := none
  phases : Option (List RagPhase) := none
  metadata : Option RagMetadata := none
deriving DecidableEq

/-! ## Normalized (persisted) roadmap shape produced by createFromRAG. -/

structure Resource where
  title : String
  type : String
  url : String
  platform : Option String
deriving DecidableEq

structure Topic where
  topicId : String
  topic : String
  description : String
  difficulty : String
  estimatedHours : Nat
  prerequisites : List String
  resources : List Resource
  order : Nat
deriving DecidableEq

structure Phase where
  phaseNumber : Nat
  phaseName : String
  description : String
  totalHours : Nat
  topics : List Topic
deriving DecidableEq

structure RoadmapMetadata where
  query : String
  domain : String
  mode : String
  source : String
deriving DecidableEq

structure NormalizedRoadmap where
  userId : Nat
  chatId : Option Nat
  title : String
  description : String
  aiSummary : String
  totalTopics : Nat
  totalHours : Nat
  phases : List Phase
  metadata : RoadmapMetadata
deriving DecidableEq

/-- Resource type normalization from createFromRAG:
let resourceType = res.type || (a fallback of) article; problem becomes
practice; youtube and playlist become video; everything else is returned
as is. -/
def canonicalizeResourceType (t : Option String) : String :=
  let resourceType := jsOrStr t "article"
  if resourceType = "problem" then "practice"
  else if resourceType = "youtube" ∨ resourceType = "playlist" then "video"
  else resourceType

/-- Resource mapping inside createFromRAG. -/
def normalizeResource (res : RagResource) : Resource :=
  { title := jsOrStr res.title "Resource"
    type := canonicalizeResourceType res.rtype
    url := jsOrStr res.url "#"
    platform := res.platform }

/-- Topic mapping inside createFromRAG, parametrized by the enclosing phase
index and the topic index within the phase. -/
def normalizeTopic (phaseIdx topicIdx : Nat) (topic : RagTopic) : Topic :=
  { topicId := jsOrStr2 topic.id topic.topicId
      ("topic_" ++ toString phaseIdx ++ "_" ++ toString topicIdx)
    topic := jsOrStr topic.topic "Untitled Topic"
    description := jsOrStr topic.description ""
    difficulty := jsOrStr topic.difficulty "medium"
    estimatedHours := jsOrNat2 topic.estimated_hours topic.estimatedHours 1
    prerequisites := topic.prerequisites.getD []
    resources := (topic.resources.getD []).map normalizeResource
    order := jsOrNat topic.order (topicIdx + 1) }

/-- Phase mapping inside createFromRAG, parametrized by the phase index. -/
def normalizePhase (phaseIdx : Nat) (phase : RagPhase) : Phase :=
  { phaseNumber := jsOrNat2 phase.phase_number phase.phaseNumber (phaseIdx + 1)
    phaseName := jsOrStr2 phase.phase_name phase.phaseName
      ("Phase " ++ toString (phaseIdx + 1))
    description := jsOrStr phase.description ""
    totalHours := jsOrNat2 phase.total_hours phase.totalHours 0
    topics := jsMapIdx (fun topicIdx t => normalizeTopic phaseIdx topicIdx t)
      (phase.topics.getD []) }

/-- Metadata mapping inside createFromRAG (optional chaining then fallback). -/
def normalizeMetadata (m : Option RagMetadata) : RoadmapMetadata :=
  { query := jsOrStr (m.bind (·.query)) ""
    domain := jsOrStr (m.bind (·.domain)) ""
    mode := jsOrStr (m.bind (·.mode)) "rag"
    source := jsOrStr (m.bind (·.source)) "rag_service" }

/-- Title handling in createFromRAG: fallback, then hard truncation at 500
characters (first 497 characters plus an ellipsis marker). -/
def normalizeTitle (t : Option String) : String :=
  let title := jsOrStr t "Learning Roadmap"
  if 500 < title.length then title.take 497 ++ "..." else title

/-- Roadmap.createFromRAG (backend/models/Roadmap.js): the pure
transformation of the raw RAG response into the document handed to
roadmap.save().  Both the claimed totals and the phase structure are read
from the payload, with snake_case preferred over camelCase and JavaScript
falsy fallbacks. -/
def createFromRAG (userId : Nat) (chatId : Option Nat) (r : RagResponse) :
    NormalizedRoadmap :=
  { userId := userId
    chatId := chatId
    title := normalizeTitle r.title
    description := jsOrStr r.description ""
    aiSummary := jsOrStr2 r.ai_summary r.aiSummary ""
    totalTopics := jsOrNat2 r.total_topics r.totalTopics 0
    totalHours := jsOrNat2 r.total_hours r.totalHours 0
    phases := jsMapIdx normalizePhase (r.phases.getD [])
    metadata := normalizeMetadata r.metadata }

/-- Count of all topics across all phases of a normalized roadmap. -/
def countTopics (rm : NormalizedRoadmap) : Nat :=
  (rm.phases.map (fun ph => ph.topics.length)).sum

/-- Sum of all topic estimatedHours across all phases. -/
def sumEstimatedHours (rm : NormalizedRoadmap) : Nat :=
  (rm.phases.map (fun ph => (ph.topics.map (·.estimatedHours)).sum)).sum

/-! ## Progress ledger (backend/models/Progress.js). -/

structure ProgressRecord where
  userId : Nat
  roadmapId : Nat
  topicId : Nat
  topicIdentifier : String
  completed : Bool
  completedAt : Option Nat
  notes : String
  rating : Option Nat
  timeSpent : Nat
deriving DecidableEq

/-- Key match used by findOne({ userId, roadmapId, topicId }) and by the
unique compound index on (userId, roadmapId, topicId). -/
def progressKeyMatch (u rid tid : Nat) (p : ProgressRecord) : Bool :=
  p.userId == u && p.roadmapId == rid && p.topicId == tid

/-- First statement of the ProgressSchema pre-save hook: when completed was
modified, is true and completedAt is unset, stamp completedAt. -/
def progressPreSaveStamp (now : Nat) (modifiedCompleted : Bool)
    (p : ProgressRecord) : ProgressRecord :=
  if modifiedCompleted && p.completed && p.completedAt == none
  then { p with completedAt := some now } else p

/-- Second statement of the ProgressSchema pre-save hook: when completed was
modified and is false, clear completedAt. -/
def progressPreSaveClear (modifiedCompleted : Bool) (p : ProgressRecord) :
    ProgressRecord :=
  if modifiedCompleted && !p.completed
  then { p with completedAt := none } else p

/-- Pre-save hook of ProgressSchema: when completed was modified, stamp
completedAt on a fresh completion and clear it on un-completion. -/
def progressPreSave (now : Nat) (modifiedCompleted : Bool)
    (p : ProgressRecord) : ProgressRecord :=
  progressPreSaveClear modifiedCompleted
    (progressPreSaveStamp now modifiedCompleted p)

/-- Document write-back of progress.save() for an existing record: replace
the record findOne located, the first one matching the key. -/
def updateFirst (f : ProgressRecord → Bool) (repl : ProgressRecord) :
    List ProgressRecord → List ProgressRecord
  | [] => []
  | p :: rest =>
      if f p then repl :: rest else p :: updateFirst f repl rest

/-- Toggle applied by markComplete to an existing record, followed by the
pre-save hook. -/
def toggleRecord (now : Nat) (p : ProgressRecord) : ProgressRecord :=
  progressPreSave now true
    { p with
      completed := !p.completed
      completedAt := if !p.completed then some now else none }

/-- Fresh record built by markComplete when none exists, followed by the
pre-save hook.  The notes, rating and timeSpent fields take their schema
defaults. -/
def freshRecord (u rid tid : Nat) (tidStr : String) (now : Nat) :
    ProgressRecord :=
  progressPreSave now true
    { userId := u
      roadmapId := rid
      topicId := tid
      topicIdentifier := tidStr
      completed := true
      completedAt := some now
      notes := ""
      rating := none
      timeSpent := 0 }

/-- Progress.markComplete(userId, roadmapId, topicId, topicIdentifier):
toggle the existing record in place, or insert a fresh completed record.
Returns the saved record and the updated store. -/
def markComplete (store : List ProgressRecord) (u rid tid : Nat)
    (tidStr : String) (now : Nat) :
    ProgressRecord × List ProgressRecord :=
  match store.find? (progressKeyMatch u rid tid) with
  | some p =>
      let p' := toggleRecord now p
      (p', updateFirst (progressKeyMatch u rid tid) p' store)
  | none =>
      let p := freshRecord u rid tid tidStr now
      (p, store ++ [p])

/-- Completion state of a (user, roadmap, topic) tuple: the completed flag
of the record findOne would return, false when no record exists. -/
def completionState (store : List ProgressRecord) (u rid tid : Nat) : Bool :=
  match store.find? (progressKeyMatch u rid tid) with
  | some p => p.completed
  | none => false

/-! ## Progress stats (Progress.getProgressStats). -/

inductive Difficulty where
  | easy
  | medium
  | hard
deriving DecidableEq

/-- Topic subdocument as stored: the store-generated subdocument id and the
difficulty, the two fields getProgressStats reads. -/
structure StatTopic where
  oid : Nat
  difficulty : Difficulty
deriving DecidableEq

structure StatPhase where
  topics : List StatTopic
deriving DecidableEq

/-- Stored roadmap document as read back by getProgressStats. -/
structure StoredRoadmap where
  rid : Nat
  userId : Nat
  totalTopics : Nat
  phases : List StatPhase
deriving DecidableEq

structure DiffCount where
  total : Nat
  completed : Nat
deriving DecidableEq

structure ByDifficulty where
  easy : DiffCount
  medium : DiffCount
  hard : DiffCount
deriving DecidableEq

def emptyByDifficulty : ByDifficulty :=
  { easy := ⟨0, 0⟩, medium := ⟨0, 0⟩, hard := ⟨0, 0⟩ }

def bumpTotal (s : ByDifficulty) : Difficulty → ByDifficulty
  | .easy => { s with easy := { s.easy with total := s.easy.total + 1 } }
  | .medium => { s with medium := { s.medium with total := s.medium.total + 1 } }
  | .hard => { s with hard := { s.hard with total := s.hard.total + 1 } }

def bumpCompleted (s : ByDifficulty) : Difficulty → ByDifficulty
  | .easy => { s with easy := { s.easy with completed := s.easy.completed + 1 } }
  | .medium =>
      { s with medium := { s.medium with completed := s.medium.completed + 1 } }
  | .hard => { s with hard := { s.hard with completed := s.hard.completed + 1 } }

structure ProgressStats where
  totalTopics : Nat
  completedTopics : Nat
  /-- none models the non-finite JavaScript value produced by dividing by a
  zero totalTopics (NaN or Infinity), which Math.round passes through. -/
  percentageComplete : Option Nat
  byDifficulty : ByDifficulty
deriving DecidableEq

/-- Math.round((completed / total) * 100) over the reals equals the floor of
100 * c / t + 1 / 2, written with Nat division; division by zero yields a
non-finite value, modelled as none. -/
def jsRoundPct (c t : Nat) : Option Nat :=
  if t = 0 then none else some ((200 * c + t) / (2 * t))

/-- Progress.getProgressStats(userId, roadmapId): findById the roadmap
(error when absent), filter the progress records of the user on that
roadmap, count the completed ones, and fold the per-difficulty breakdown
over the topics of the stored roadmap. -/
def getProgressStats (store : List ProgressRecord)
    (roadmaps : List StoredRoadmap) (userId roadmapId : Nat) :
    Except String ProgressStats :=
  match roadmaps.find? (fun r => r.rid == roadmapId) with
  | none => .error "Roadmap not found"
  | some roadmap =>
      let progressRecords := store.filter
        (fun p => p.userId == userId && p.roadmapId == roadmapId)
      let completedCount := (progressRecords.filter (·.completed)).length
      let stats := roadmap.phases.foldl (fun acc phase =>
        phase.topics.foldl (fun acc2 topic =>
          let acc3 := bumpTotal acc2 topic.difficulty
          if progressRecords.any
              (fun p => p.topicId == topic.oid && p.completed)
          then bumpCompleted acc3 topic.difficulty
          else acc3) acc) emptyByDifficulty
      .ok { totalTopics := roadmap.totalTopics
            completedTopics := completedCount
            percentageComplete := jsRoundPct completedCount roadmap.totalTopics
            byDifficulty := stats }

/-! ## Chat sessions (backend/models/Chat.js). -/

inductive Role where
  | user
  | assistant
  | system
deriving DecidableEq

/-- Message metadata, one constructor per shape the routes actually store. -/
inductive MsgMeta where
  | empty
  | roadmapTrigger (loading : Bool)
  | roadmapGenerated (roadmapId : Nat)
  | advisory (contextCompleteness : Rat) (shouldGenerate : Bool)
  | errorInfo
  | fallback
deriving DecidableEq

structure Message where
  role : Role
  content : String
  timestamp : Nat
  metadata : MsgMeta
deriving DecidableEq

inductive ChatStatus where
  | active
  | archived
  | deleted
deriving DecidableEq

structure Chat where
  userId : Nat
  title : String
  messages : List Message
  roadmapGenerated : Bool
  roadmapId : Option Nat
  status : ChatStatus
  lastMessageAt : Nat
deriving DecidableEq

/-- Pre-save hook of ChatSchema: when the messages array was modified and is
non-empty, set lastMessageAt to the timestamp of the final message. -/
def chatPreSave (c : Chat) (messagesModified : Bool) : Chat :=
  if messagesModified && decide (0 < c.messages.length) then
    match c.messages.getLast? with
    | some m => { c with lastMessageAt := m.timestamp }
    | none => c
  else c

/-- Chat.addMessage(role, content, metadata): push the message with the
current time, update lastMessageAt, auto-title from the first user message,
then save (which runs the pre-save hook with messages modified). -/
def addMessage (c : Chat) (r : Role) (content : String) (md : MsgMeta)
    (now : Nat) : Chat :=
  let c1 := { c with
    messages := c.messages ++
      [{ role := r, content := content, timestamp := now, metadata := md }]
    lastMessageAt := now }
  let c2 :=
    if c1.title = "New Chat" ∧ r = Role.user ∧ c1.messages.length = 1 then
      { c1 with
        title := content.take 50 ++
          (if 50 < content.length then "..." else "") }
    else c1
  chatPreSave c2 true

/-- Messages whose role is user. -/
def userMessages (c : Chat) : List Message :=
  c.messages.filter (fun m => m.role == Role.user)

/-- Count of user messages in a chat. -/
def userMessageCount (c : Chat) : Nat :=
  (userMessages c).length

/-- Chat.shouldGenerateRoadmap(): at least 4 user messages and no roadmap
generated yet. -/
def shouldGenerateRoadmap (c : Chat) : Bool :=
  decide (4 ≤ userMessageCount c) && !c.roadmapGenerated

/-! ## The message route POST /api/chat/:chatId/message
(backend/routes/chat.js). -/

/-- Response of the conversational advisory endpoint /chat of the RAG
service, as consumed by PATH B of the message route. -/
structure AdvisoryResponse where
  response : String
  should_generate_roadmap : Bool
  context_completeness : Rat
deriving DecidableEq

/-- Whether the message route triggers roadmap generation, as a function of
the chat state after the inbound user message was persisted and of the
advisory response when the conversational call was made.  PATH A fires when
chat.shouldGenerateRoadmap() holds; otherwise PATH B consults the advisory
response (none when the conversational call failed) and fires whenever it
sets should_generate_roadmap, without re-checking roadmapGenerated. -/
def routeFiresGeneration (c : Chat) (adv : Option AdvisoryResponse) : Bool :=
  if shouldGenerateRoadmap c then true
  else
    match adv with
    | some a => a.should_generate_roadmap
    | none => false

/-- Modelled from the spec (section 4.1), for comparison with the code:
fire exactly when generationCompleted is false and (at least 4 user
messages, or the advisory signal when present explicitly requests
generation). -/
def specTriggerRule (c : Chat) (adv : Option AdvisoryResponse) : Bool :=
  !c.roadmapGenerated &&
    (decide (4 ≤ userMessageCount c) ||
      (match adv with
       | some a => a.should_generate_roadmap
       | none => false))

/-! ## Step order of the generation path of the message route (PATH A,
backend/routes/chat.js).  Each constructor names one effectful statement of
the handler; the list records the order in which the source executes them
on the successful path. -/

inductive OrchestratorStep where
  | persistUserMessage
  | generateSmartTitle
  | evaluateTriggerPolicy
  | appendLoadingMessage
  | callGenerationService
  | persistRoadmap
  | syncRoadmapTitle
  | setGenerationCompleted
  | linkRoadmapToChat
  | appendSuccessMessage
  | respondWithRoadmap
deriving DecidableEq

/-- Execution order of PATH A of the message route on the success path:
addMessage(user), smart title, shouldGenerateRoadmap(), loading message,
callRAGGenerate, createFromRAG + save, title sync, roadmapGenerated = true,
roadmapId = roadmap id, success message, res.json. -/
def roadmapPathASteps : List OrchestratorStep :=
  [.persistUserMessage, .generateSmartTitle, .evaluateTriggerPolicy,
   .appendLoadingMessage, .callGenerationService, .persistRoadmap,
   .syncRoadmapTitle, .setGenerationCompleted, .linkRoadmapToChat,
   .appendSuccessMessage, .respondWithRoadmap]

/-- Position of the first occurrence of a step in a step list (length of the
list when absent). -/
def stepIdx (s : OrchestratorStep) : List OrchestratorStep → Nat
  | [] => 0
  | t :: rest => if t = s then 0 else stepIdx s rest + 1

/-! ## DELETE /api/roadmap/:id (backend/routes/roadmap.js). -/

/-- Persistent store as seen by the roadmap-deletion route. -/
structure AppState where
  chats : List Chat
  roadmaps : List StoredRoadmap
  progress : List ProgressRecord
deriving DecidableEq

/-- DELETE /api/roadmap/:id: findOne by id and owner (404 when absent),
then Progress.deleteMany({ roadmapId: id }), then roadmap.deleteOne().
The chats collection is not touched. -/
def deleteRoadmapRoute (st : AppState) (userId rid : Nat) :
    Except String AppState :=
  match st.roadmaps.find? (fun r => r.rid == rid && r.userId == userId) with
  | none => .error "Roadmap not found"
  | some _ =>
      .ok { st with
        progress := st.progress.filter (fun p => !(p.roadmapId == rid))
        roadmaps := st.roadmaps.filter (fun r => !(r.rid == rid)) }

/-! ## Frame relation for progress records: agreement on every field other
than completed and completedAt. -/

def frameAgrees (a b : ProgressRecord) : Prop :=
  a.userId = b.userId ∧ a.roadmapId = b.roadmapId ∧ a.topicId = b.topicId ∧
  a.topicIdentifier = b.topicIdentifier ∧ a.notes = b.notes ∧
  a.rating = b.rating ∧ a.timeSpent = b.timeSpent

/-- Invariant relating lastMessageAt to the final message of a chat. -/
def lastMessageInv (c : Chat) : Prop :=
  ∀ m, c.messages.getLast? = some m → c.lastMessageAt = m.timestamp

/-! ## Concrete instances used by counterexamples and witnesses. -/

def c1Topic : RagTopic := { estimated_hours := some 2 }

def c1Phase : RagPhase := { topics := some [c1Topic] }

/-- Payload whose claimed totals disagree with its actual structure: it
claims 5 topics and 99 hours but contains one topic of 2 hours. -/
def c1Payload : RagResponse :=
  { total_topics := some 5, total_hours := some 99, phases := some [c1Phase] }

def c2Roadmap : StoredRoadmap :=
  { rid := 1, userId := 7, totalTopics := 0, phases := [] }

def c2wRoadmap : StoredRoadmap :=
  { rid := 2, userId := 7, totalTopics := 4, phases := [] }

def c2wRecord : ProgressRecord :=
  { userId := 7, roadmapId := 2, topicId := 9, topicIdentifier := "a"
    completed := true, completedAt := some 1, notes := "", rating := none
    timeSpent := 0 }

def c2wStats : ProgressStats :=
  { totalTopics := 4, completedTopics := 1, percentageComplete := some 25
    byDifficulty := emptyByDifficulty }

def c2bRoadmap : StoredRoadmap :=
  { rid := 3, userId := 7, totalTopics := 1, phases := [] }

def c2bRec1 : ProgressRecord :=
  { userId := 7, roadmapId := 3, topicId := 1, topicIdentifier := "x1"
    completed := true, completedAt := some 1, notes := "", rating := none
    timeSpent := 0 }

def c2bRec2 : ProgressRecord :=
  { userId := 7, roadmapId := 3, topicId := 2, topicIdentifier := "x2"
    completed := true, completedAt := some 2, notes := "", rating := none
    timeSpent := 0 }

def cMsgUser : Message :=
  { role := .user, content := "m", timestamp := 1, metadata := .empty }

/-- Chat whose roadmap has already been generated. -/
def c3Chat : Chat :=
  { userId := 1, title := "T", messages := [cMsgUser]
    roadmapGenerated := true, roadmapId := some 1, status := .active
    lastMessageAt := 1 }

def c3Advisory : AdvisoryResponse :=
  { response := "ok", should_generate_roadmap := true
    context_completeness := 1 }

/-- Chat with exactly 3 user messages and no roadmap yet. -/
def c3wChat : Chat :=
  { userId := 1, title := "T", messages := [cMsgUser, cMsgUser, cMsgUser]
    roadmapGenerated := false, roadmapId := none, status := .active
    lastMessageAt := 1 }

def c9Rec : ProgressRecord :=
  { userId := 1, roadmapId := 2, topicId := 3, topicIdentifier := "arr_01"
    completed := true, completedAt := some 4, notes := "n", rating := some 5
    timeSpent := 30 }

def c7Chat : Chat :=
  { userId := 10, title := "T", messages := [], roadmapGenerated := true
    roadmapId := some 1, status := .active, lastMessageAt := 0 }

def c7Roadmap : StoredRoadmap :=
  { rid := 1, userId := 10, totalTopics := 3, phases := [] }

def c7Record : ProgressRecord :=
  { userId := 10, roadmapId := 1, topicId := 5, topicIdentifier := "t1"
    completed := true, completedAt := some 3, notes := "", rating := none
    timeSpent := 0 }

def c7State : AppState :=
  { chats := [c7Chat], roadmaps := [c7Roadmap], progress := [c7Record] }

def c10Chat : Chat :=
  { userId := 1, title := "New Chat", messages := [], roadmapGenerated := false
    roadmapId := none, status := .active, lastMessageAt := 0 }

def c10bChat : Chat :=
  { userId := 1, title := "T", messages := [cMsgUser]
    roadmapGenerated := false, roadmapId := none, status := .active
    lastMessageAt := 0 }

/-! # Theorems -/

theorem length_mapIdxFrom (f : Nat → α → β) (i : Nat) (l : List α) :
    (mapIdxFrom f i l).length = l.length := by
  induction l generalizing i with
  | nil => rfl
  | cons a as ih => simp [mapIdxFrom, ih]

theorem length_jsMapIdx (f : Nat → α → β) (l : List α) :
    (jsMapIdx f l).length = l.length := by
  simp [jsMapIdx, length_mapIdxFrom]

theorem sum_map_mapIdxFrom (f : Nat → α → β) (g : β → Nat) (h : α → Nat)
    (hfg : ∀ i a, g (f i a) = h a) (i : Nat) (l : List α) :
    ((mapIdxFrom f i l).map g).sum = (l.map h).sum := by
  induction l generalizing i with
  | nil => rfl
  | cons a as ih => simp [mapIdxFrom, hfg, ih]

/-- C1 counterexample: on a payload claiming 5 topics and 99 hours while
containing a single topic of 2 hours, createFromRAG persists the claimed
totals, so totalTopics differs from the count of topics across phases and
totalHours differs from the summed estimatedHours. -/
theorem c1_totals_trusted_counterexample :
    (createFromRAG 1 none c1Payload).totalTopics = 5 ∧
    countTopics (createFromRAG 1 none c1Payload) = 1 ∧
    (createFromRAG 1 none c1Payload).totalHours = 99 ∧
    sumEstimatedHours (createFromRAG 1 none c1Payload) = 2 ∧
    (createFromRAG 1 none c1Payload).totalTopics ≠
      countTopics (createFromRAG 1 none c1Payload) ∧
    (createFromRAG 1 none c1Payload).totalHours ≠
      sumEstimatedHours (createFromRAG 1 none c1Payload) := by
  decide

/-- C1 amended: the persisted totals are taken verbatim from the claimed
total_topics/totalTopics and total_hours/totalHours of the payload
(snake_case first, JavaScript falsy fallback to 0), not recomputed; the
count of persisted topics equals the count of topics in the payload, so the
two agree only when the payload claim happens to match. -/
theorem c1_totals_taken_from_payload (u : Nat) (cid : Option Nat)
    (r : RagResponse) :
    (createFromRAG u cid r).totalTopics =
      jsOrNat2 r.total_topics r.totalTopics 0 ∧
    (createFromRAG u cid r).totalHours =
      jsOrNat2 r.total_hours r.totalHours 0 ∧
    countTopics (createFromRAG u cid r) =
      ((r.phases.getD []).map (fun ph => (ph.topics.getD []).length)).sum := by
  refine ⟨rfl, rfl, ?_⟩
  unfold countTopics createFromRAG jsMapIdx
  exact sum_map_mapIdxFrom normalizePhase (fun ph => ph.topics.length)
    (fun ph => (ph.topics.getD []).length)
    (fun i a => by simp [normalizePhase, length_jsMapIdx]) 0 (r.phases.getD [])

/-- C4 counterexample: the canonicalizer is not total onto
{video, article, practice}; the unrecognized string "documentation" is
passed through unchanged instead of defaulting to "article". -/
theorem c4_unrecognized_passes_through :
    canonicalizeResourceType (some "documentation") = "documentation" ∧
    "documentation" ≠ "article" := by
  decide

/-- C4 amended: the canonicalizer maps problem to practice, youtube and
playlist to video, article to itself, and a missing or empty type to
article; every other string is passed through unchanged rather than
defaulting to article. -/
theorem c4_canonicalization_cases :
    canonicalizeResourceType none = "article" ∧
    canonicalizeResourceType (some "") = "article" ∧
    canonicalizeResourceType (some "problem") = "practice" ∧
    canonicalizeResourceType (some "youtube") = "video" ∧
    canonicalizeResourceType (some "playlist") = "video" ∧
    canonicalizeResourceType (some "article") = "article" ∧
    ∀ s : String, s ≠ "" → s ≠ "problem" → s ≠ "youtube" → s ≠ "playlist" →
      canonicalizeResourceType (some s) = s := by
  refine ⟨by decide, by decide, by decide, by decide, by decide, by decide, ?_⟩
  intro s h0 h1 h2 h3
  simp [canonicalizeResourceType, jsOrStr, h0, h1, h2, h3]

/-- C4 witness: the amended pass-through case evaluated at "book". -/
theorem c4_canonicalization_cases_witness :
    canonicalizeResourceType (some "book") = "book" :=
  c4_canonicalization_cases.2.2.2.2.2.2 "book" (by decide) (by decide)
    (by decide) (by decide)

/-- C5 counterexample: in the success path of the message route the
generationCompleted flag is not set before the generation client call;
the call step precedes the flag-set step in the executed order. -/
theorem c5_flag_not_set_before_call :
    ¬ (stepIdx .setGenerationCompleted roadmapPathASteps <
        stepIdx .callGenerationService roadmapPathASteps) ∧
    OrchestratorStep.callGenerationService ∈ roadmapPathASteps ∧
    OrchestratorStep.setGenerationCompleted ∈ roadmapPathASteps := by
  decide

/-- C5 amended: generationCompleted is set only after the generation client
call returns and after the roadmap is persisted, and each of those steps
occurs exactly once on the success path; no optimistic flip precedes the
external call. -/
theorem c5_flag_set_after_persist :
    stepIdx .callGenerationService roadmapPathASteps <
      stepIdx .setGenerationCompleted roadmapPathASteps ∧
    stepIdx .persistRoadmap roadmapPathASteps <
      stepIdx .setGenerationCompleted roadmapPathASteps ∧
    (roadmapPathASteps.filter
      (fun t => t = OrchestratorStep.setGenerationCompleted)).length = 1 ∧
    (roadmapPathASteps.filter
      (fun t => t = OrchestratorStep.callGenerationService)).length = 1 := by
  decide

/-- C8 counterexample: a topic with both estimated-hours variants absent is
normalized with estimatedHours = 1, not the minimum valid value 0. -/
theorem c8_estimatedHours_defaults_to_one :
    (normalizeTopic 0 0 {}).estimatedHours = 1 ∧
    (normalizeTopic 0 0 {}).estimatedHours ≠ 0 := by
  decide

/-- C8 amended: when absent or falsy in the payload, a topic
estimatedHours defaults to 1 while the phase-level and plan-level
totalHours default to 0. -/
theorem c8_numeric_defaults (pi ti : Nat) (t : RagTopic) (ph : RagPhase)
    (r : RagResponse)
    (ht1 : t.estimated_hours = none ∨ t.estimated_hours = some 0)
    (ht2 : t.estimatedHours = none ∨ t.estimatedHours = some 0)
    (hp1 : ph.total_hours = none ∨ ph.total_hours = some 0)
    (hp2 : ph.totalHours = none ∨ ph.totalHours = some 0)
    (hr1 : r.total_hours = none ∨ r.total_hours = some 0)
    (hr2 : r.totalHours = none ∨ r.totalHours = some 0) :
    (normalizeTopic pi ti t).estimatedHours = 1 ∧
    (normalizePhase pi ph).totalHours = 0 ∧
    (createFromRAG 0 none r).totalHours = 0 := by
  have key : ∀ (a b : Option Nat), (a = none ∨ a = some 0) →
      (b = none ∨ b = some 0) → ∀ d, jsOrNat2 a b d = d := by
    intro a b ha hb d
    rcases ha with h | h <;> rcases hb with h' | h' <;>
      simp [jsOrNat2, jsOrNat, h, h']
  exact ⟨key _ _ ht1 ht2 1, key _ _ hp1 hp2 0, key _ _ hr1 hr2 0⟩

/-- C8 witness: the amended defaults evaluated on empty payload pieces. -/
theorem c8_numeric_defaults_witness :
    (normalizeTopic 1 2 {}).estimatedHours = 1 ∧
    (normalizePhase 1 {}).totalHours = 0 ∧
    (createFromRAG 0 none {}).totalHours = 0 :=
  c8_numeric_defaults 1 2 {} {} {} (Or.inl rfl) (Or.inl rfl) (Or.inl rfl)
    (Or.inl rfl) (Or.inl rfl) (Or.inl rfl)

theorem jsRoundPct_le_100 (c t : Nat) (h0 : 0 < t) (hle : c ≤ t) :
    ∃ p, jsRoundPct c t = some p ∧ p ≤ 100 := by
  refine ⟨(200 * c + t) / (2 * t), by simp [jsRoundPct, Nat.pos_iff_ne_zero.mp h0], ?_⟩
  have h2 : 0 < 2 * t := by omega
  have hlt : 200 * c + t < 101 * (2 * t) := by omega
  have := (Nat.div_lt_iff_lt_mul h2).mpr hlt
  omega

/-- C2 counterexample: on a roadmap with totalTopics = 0 the stats operation
produces a non-finite percentageComplete (division by zero), not 0; and on
a roadmap whose stored totalTopics is 1 while two completed records exist
for the same user, percentageComplete is 200, outside [0, 100]. -/
theorem c2_percentage_nan_at_zero :
    getProgressStats [] [c2Roadmap] 7 1 =
      .ok { totalTopics := 0, completedTopics := 0
            percentageComplete := none
            byDifficulty := emptyByDifficulty } ∧
    (none : Option Nat) ≠ some 0 ∧
    getProgressStats [c2bRec1, c2bRec2] [c2bRoadmap] 7 3 =
      .ok { totalTopics := 1, completedTopics := 2
            percentageComplete := some 200
            byDifficulty := emptyByDifficulty } ∧
    ¬ (200 : Nat) ≤ 100 := by
  exact ⟨rfl, by decide, rfl, by decide⟩

/-- C2 amended: percentageComplete is the rounding of
100 * completedTopics / totalTopics; it is an integer in [0, 100] whenever
totalTopics is positive and completedTopics does not exceed it, but when
totalTopics = 0 it is the non-finite result of dividing by zero, not 0. -/
theorem c2_percentage_bounds (store : List ProgressRecord)
    (roadmaps : List StoredRoadmap) (u rid : Nat) (s : ProgressStats)
    (h : getProgressStats store roadmaps u rid = .ok s)
    (h0 : 0 < s.totalTopics) (hle : s.completedTopics ≤ s.totalTopics) :
    ∃ p, s.percentageComplete = some p ∧ p ≤ 100 := by
  unfold getProgressStats at h
  cases hf : roadmaps.find? (fun r => r.rid == rid) with
  | none => rw [hf] at h; exact absurd h (by simp)
  | some rm =>
      rw [hf] at h
      simp only [Except.ok.injEq] at h
      subst h
      exact jsRoundPct_le_100 _ _ h0 hle

/-- C2 witness: the amended bound evaluated on a store with one completed
record out of four topics, yielding 25 percent. -/
theorem c2_percentage_bounds_witness :
    ∃ p, c2wStats.percentageComplete = some p ∧ p ≤ 100 :=
  c2_percentage_bounds [c2wRecord] [c2wRoadmap] 7 2 c2wStats rfl
    (by decide) (by decide)

/-- C7 counterexample: deleting roadmap 1 removes its progress records and
the roadmap itself, but the owning chat still points at it through
roadmapId afterwards. -/
theorem c7_chat_reference_not_cleared :
    deleteRoadmapRoute c7State 10 1 =
      .ok { chats := [c7Chat], roadmaps := [], progress := [] } ∧
    c7Chat.roadmapId = some 1 := by
  exact ⟨rfl, rfl⟩

/-- C7 amended: the roadmap-deletion route deletes every ProgressRecord
whose roadmapId references the plan and the plan itself, but leaves the
chats collection untouched, so a session back-reference to the deleted plan
is not cleared. -/
theorem c7_delete_cascade (st : AppState) (u rid : Nat) (st' : AppState)
    (h : deleteRoadmapRoute st u rid = .ok st') :
    (∀ p ∈ st'.progress, p.roadmapId ≠ rid) ∧
    (∀ r ∈ st'.roadmaps, r.rid ≠ rid) ∧
    st'.chats = st.chats := by
  unfold deleteRoadmapRoute at h
  cases hf : st.roadmaps.find? (fun r => r.rid == rid && r.userId == u) with
  | none => rw [hf] at h; exact absurd h (by simp)
  | some rm =>
      rw [hf] at h
      simp only [Except.ok.injEq] at h
      subst h
      refine ⟨?_, ?_, rfl⟩
      · intro p hp
        have := (List.mem_filter.mp hp).2
        simpa using this
      · intro r hr
        have := (List.mem_filter.mp hr).2
        simpa using this

/-- C7 witness: the amended cascade evaluated on the concrete store. -/
theorem c7_delete_cascade_witness :
    (∀ p ∈ ({ chats := [c7Chat], roadmaps := [], progress := [] }
        : AppState).progress, p.roadmapId ≠ 1) ∧
    (∀ r ∈ ({ chats := [c7Chat], roadmaps := [], progress := [] }
        : AppState).roadmaps, r.rid ≠ 1) ∧
    ({ chats := [c7Chat], roadmaps := [], progress := [] }
        : AppState).chats = c7State.chats :=
  c7_delete_cascade c7State 10 1 _ rfl

theorem chatPreSave_messages (c : Chat) (m : Bool) :
    (chatPreSave c m).messages = c.messages := by
  unfold chatPreSave
  split
  · split <;> rfl
  · rfl

theorem chatPreSave_roadmapGenerated (c : Chat) (m : Bool) :
    (chatPreSave c m).roadmapGenerated = c.roadmapGenerated := by
  unfold chatPreSave
  split
  · split <;> rfl
  · rfl

theorem chatPreSave_lastMessageAt_of_getLast (c : Chat) (m : Message)
    (h : c.messages.getLast? = some m) :
    (chatPreSave c true).lastMessageAt = m.timestamp := by
  have hne : c.messages ≠ [] := by
    intro h0
    rw [h0] at h
    exact Option.noConfusion h
  have hlen : 0 < c.messages.length := List.length_pos.mpr hne
  unfold chatPreSave
  rw [if_pos (by simpa using hlen), h]

theorem getLast?_append_singleton (l : List α) (a : α) :
    (l ++ [a]).getLast? = some a := by
  induction l with
  | nil => rfl
  | cons b t ih =>
      rw [List.cons_append]
      cases h : t ++ [a] with
      | nil => exact absurd h (by simp)
      | cons c u =>
          rw [h] at ih
          rw [List.getLast?_cons_cons]
          exact ih

theorem addMessage_messages (c : Chat) (r : Role) (s : String) (md : MsgMeta)
    (now : Nat) :
    (addMessage c r s md now).messages = c.messages ++
      [{ role := r, content := s, timestamp := now, metadata := md }] := by
  unfold addMessage
  rw [chatPreSave_messages]
  split <;> rfl

theorem addMessage_roadmapGenerated (c : Chat) (r : Role) (s : String)
    (md : MsgMeta) (now : Nat) :
    (addMessage c r s md now).roadmapGenerated = c.roadmapGenerated := by
  unfold addMessage
  rw [chatPreSave_roadmapGenerated]
  split <;> rfl

theorem userMessageCount_addMessage_user (c : Chat) (s : String)
    (md : MsgMeta) (now : Nat) :
    userMessageCount (addMessage c Role.user s md now) =
      userMessageCount c + 1 := by
  unfold userMessageCount userMessages
  rw [addMessage_messages, List.filter_append]
  simp

/-- C3 counterexample: on a chat whose roadmap was already generated, an
advisory response requesting generation makes the route fire again, while
the specified rule (generationCompleted false AND (4 user messages OR
advisory request)) says it must not fire. -/
theorem c3_advisory_path_not_guarded :
    routeFiresGeneration c3Chat (some c3Advisory) = true ∧
    specTriggerRule c3Chat (some c3Advisory) = false ∧
    c3Chat.roadmapGenerated = true := by
  refine ⟨rfl, rfl, rfl⟩

/-- C3 amended: the route fires iff (at least 4 user messages AND no
roadmap generated) OR the advisory response, when present, requests
generation — the advisory branch is not guarded by generationCompleted.
Absent an advisory request, 3 user messages do not fire; appending a
fourth user message makes the model policy fire; once generationCompleted
is set the policy no longer fires.  The decision is the pure function
routeFiresGeneration of the supplied state. -/
theorem c3_route_trigger_characterization :
    (∀ (c : Chat) (adv : Option AdvisoryResponse),
      routeFiresGeneration c adv = true ↔
        ((4 ≤ userMessageCount c ∧ c.roadmapGenerated = false) ∨
         (∃ a, adv = some a ∧ a.should_generate_roadmap = true))) ∧
    (∀ c : Chat, userMessageCount c = 3 →
      routeFiresGeneration c none = false) ∧
    (∀ (c : Chat) (s : String) (md : MsgMeta) (now : Nat),
      userMessageCount c = 3 → c.roadmapGenerated = false →
      shouldGenerateRoadmap (addMessage c Role.user s md now) = true) ∧
    (∀ c : Chat, c.roadmapGenerated = true →
      routeFiresGeneration c none = false) := by
  refine ⟨?_, ?_, ?_, ?_⟩
  · intro c adv
    cases hadv : adv with
    | none =>
        by_cases h4 : 4 ≤ userMessageCount c <;>
          cases hg : c.roadmapGenerated <;>
          simp [routeFiresGeneration, shouldGenerateRoadmap, h4, hg]
    | some a =>
        by_cases h4 : 4 ≤ userMessageCount c <;>
          cases hg : c.roadmapGenerated <;>
          simp [routeFiresGeneration, shouldGenerateRoadmap, h4, hg]
  · intro c h3
    simp [routeFiresGeneration, shouldGenerateRoadmap, h3]
  · intro c s md now h3 hg
    have hc := userMessageCount_addMessage_user c s md now
    rw [h3] at hc
    simp [shouldGenerateRoadmap, hc, addMessage_roadmapGenerated, hg]
  · intro c hg
    simp [routeFiresGeneration, shouldGenerateRoadmap, hg]

/-- C3 witness: the amended scenario on a concrete chat — with 3 user
messages and no advisory request the route does not fire, and after the
fourth user message the model trigger policy fires. -/
theorem c3_route_trigger_witness :
    routeFiresGeneration c3wChat none = false ∧
    shouldGenerateRoadmap (addMessage c3wChat Role.user "go" .empty 9)
      = true :=
  ⟨c3_route_trigger_characterization.2.1 c3wChat (by decide),
   c3_route_trigger_characterization.2.2.1 c3wChat "go" .empty 9
     (by decide) (by decide)⟩

/-- C10: every message-appending save re-establishes the invariant that
lastMessageAt equals the timestamp of the final message: the pre-save hook
establishes it on any chat with a modified non-empty messages array, and
addMessage (append + save) always establishes it. -/
theorem c10_lastMessageAt_invariant :
    (∀ c : Chat, c.messages ≠ [] → lastMessageInv (chatPreSave c true)) ∧
    (∀ (c : Chat) (r : Role) (s : String) (md : MsgMeta) (now : Nat),
      lastMessageInv (addMessage c r s md now)) := by
  constructor
  · intro c hne m hm
    rw [chatPreSave_messages] at hm
    exact chatPreSave_lastMessageAt_of_getLast c m hm
  · intro c r s md now m hm
    rw [addMessage_messages, getLast?_append_singleton] at hm
    cases hm
    show (chatPreSave _ true).lastMessageAt = _
    apply chatPreSave_lastMessageAt_of_getLast
    have hmsg : ∀ c2 : Chat, c2.messages = c.messages ++
        [{ role := r, content := s, timestamp := now, metadata := md }] →
        c2.messages.getLast? = some
          { role := r, content := s, timestamp := now, metadata := md } := by
      intro c2 h2
      rw [h2, getLast?_append_singleton]
    apply hmsg
    split <;> rfl

/-- C10 witness: the invariant holds after a concrete pre-save and after a
concrete addMessage. -/
theorem c10_lastMessageAt_invariant_witness :
    lastMessageInv (chatPreSave c10bChat true) ∧
    lastMessageInv (addMessage c10Chat Role.user "hi" .empty 5) :=
  ⟨c10_lastMessageAt_invariant.1 c10bChat (by decide),
   c10_lastMessageAt_invariant.2 c10Chat Role.user "hi" .empty 5⟩

theorem frameAgrees_refl (a : ProgressRecord) : frameAgrees a a :=
  ⟨rfl, rfl, rfl, rfl, rfl, rfl, rfl⟩

theorem frameAgrees_trans {a b c : ProgressRecord} (h1 : frameAgrees a b)
    (h2 : frameAgrees b c) : frameAgrees a c := by
  obtain ⟨x1, x2, x3, x4, x5, x6, x7⟩ := h1
  obtain ⟨y1, y2, y3, y4, y5, y6, y7⟩ := h2
  exact ⟨x1.trans y1, x2.trans y2, x3.trans y3, x4.trans y4, x5.trans y5,
    x6.trans y6, x7.trans y7⟩

theorem progressPreSaveStamp_frame (now : Nat) (m : Bool)
    (p : ProgressRecord) :
    frameAgrees p (progressPreSaveStamp now m p) ∧
    (progressPreSaveStamp now m p).completed = p.completed := by
  unfold progressPreSaveStamp
  split <;> exact ⟨⟨rfl, rfl, rfl, rfl, rfl, rfl, rfl⟩, rfl⟩

theorem progressPreSaveClear_frame (m : Bool) (p : ProgressRecord) :
    frameAgrees p (progressPreSaveClear m p) ∧
    (progressPreSaveClear m p).completed = p.completed := by
  unfold progressPreSaveClear
  split <;> exact ⟨⟨rfl, rfl, rfl, rfl, rfl, rfl, rfl⟩, rfl⟩

theorem progressPreSave_frame (now : Nat) (m : Bool) (p : ProgressRecord) :
    frameAgrees p (progressPreSave now m p) ∧
    (progressPreSave now m p).completed = p.completed := by
  unfold progressPreSave
  constructor
  · exact frameAgrees_trans (progressPreSaveStamp_frame now m p).1
      (progressPreSaveClear_frame m _).1
  · rw [(progressPreSaveClear_frame m _).2,
      (progressPreSaveStamp_frame now m p).2]

theorem toggleRecord_frame (now : Nat) (p : ProgressRecord) :
    frameAgrees p (toggleRecord now p) ∧
    (toggleRecord now p).completed = (!p.completed) := by
  unfold toggleRecord
  constructor
  · exact frameAgrees_trans
      (show frameAgrees p
        { p with completed := !p.completed,
                 completedAt := if !p.completed then some now else none }
        from ⟨rfl, rfl, rfl, rfl, rfl, rfl, rfl⟩)
      (progressPreSave_frame now true _).1
  · exact (progressPreSave_frame now true _).2

theorem keyMatch_eq_of_frame {a b : ProgressRecord} (u rid tid : Nat)
    (h : frameAgrees a b) :
    progressKeyMatch u rid tid b = progressKeyMatch u rid tid a := by
  obtain ⟨h1, h2, h3, _⟩ := h
  simp [progressKeyMatch, ← h1, ← h2, ← h3]

theorem freshRecord_key (u rid tid : Nat) (s : String) (now : Nat) :
    progressKeyMatch u rid tid (freshRecord u rid tid s now) = true := by
  unfold freshRecord
  rw [keyMatch_eq_of_frame u rid tid (progressPreSave_frame now true _).1]
  simp [progressKeyMatch]

theorem freshRecord_completed (u rid tid : Nat) (s : String) (now : Nat) :
    (freshRecord u rid tid s now).completed = true := by
  unfold freshRecord
  rw [(progressPreSave_frame now true _).2]

theorem filter_eq_nil_of_find?_none {f : ProgressRecord → Bool}
    {l : List ProgressRecord} (h : l.find? f = none) : l.filter f = [] := by
  rw [List.filter_eq_nil_iff]
  intro a ha
  have := List.find?_eq_none.mp h a ha
  simpa using this

theorem find?_append_singleton_none {f : ProgressRecord → Bool}
    {l : List ProgressRecord} {a : ProgressRecord} (h : l.find? f = none)
    (ha : f a = true) : (l ++ [a]).find? f = some a := by
  induction l with
  | nil => simp [List.find?_cons, ha]
  | cons b t ih =>
      have hb : f b = false := by
        cases hfb : f b
        · rfl
        · rw [List.find?_cons_of_pos _ hfb] at h
          exact absurd h (by simp)
      rw [List.find?_cons_of_neg _ (by simp [hb])] at h
      rw [List.cons_append, List.find?_cons_of_neg _ (by simp [hb])]
      exact ih h

theorem find?_updateFirst {f : ProgressRecord → Bool} {p' : ProgressRecord}
    (hp' : f p' = true) :
    ∀ (l : List ProgressRecord) (p : ProgressRecord), l.find? f = some p →
      (updateFirst f p' l).find? f = some p'
  | [], p, h => absurd h (by simp)
  | b :: t, p, h => by
      cases hb : f b with
      | true =>
          simp only [updateFirst, hb, if_true]
          rw [List.find?_cons_of_pos _ hp']
      | false =>
          rw [List.find?_cons_of_neg _ (by simp [hb])] at h
          simp only [updateFirst, hb, Bool.false_eq_true, if_false]
          rw [List.find?_cons_of_neg _ (by simp [hb])]
          exact find?_updateFirst hp' t p h

theorem updateFirst_filter_length {f : ProgressRecord → Bool}
    {p' : ProgressRecord} (hp' : f p' = true) :
    ∀ (l : List ProgressRecord) (p : ProgressRecord), l.find? f = some p →
      ((updateFirst f p' l).filter f).length = (l.filter f).length
  | [], p, h => absurd h (by simp)
  | b :: t, p, h => by
      cases hb : f b with
      | true =>
          simp only [updateFirst, hb, if_true]
          rw [List.filter_cons_of_pos hp', List.filter_cons_of_pos hb]
          rfl
      | false =>
          rw [List.find?_cons_of_neg _ (by simp [hb])] at h
          simp only [updateFirst, hb, Bool.false_eq_true, if_false]
          rw [List.filter_cons_of_neg (by simp [hb]),
            List.filter_cons_of_neg (by simp [hb])]
          exact updateFirst_filter_length hp' t p h

theorem find?_some_filter_pos {f : ProgressRecord → Bool}
    {l : List ProgressRecord} {p : ProgressRecord} (h : l.find? f = some p) :
    0 < (l.filter f).length := by
  have hmem : p ∈ l := List.mem_of_find?_eq_some h
  have hp : f p = true := List.find?_some h
  have : p ∈ l.filter f := List.mem_filter.mpr ⟨hmem, hp⟩
  exact List.length_pos.mpr (List.ne_nil_of_mem this)

theorem updateFirst_forall2 {f : ProgressRecord → Bool}
    {p p' : ProgressRecord} (hR : frameAgrees p p') :
    ∀ l : List ProgressRecord, l.find? f = some p →
      List.Forall₂ frameAgrees l (updateFirst f p' l)
  | [], h => absurd h (by simp)
  | b :: t, h => by
      cases hb : f b with
      | true =>
          rw [List.find?_cons_of_pos _ hb] at h
          cases h
          simp only [updateFirst, hb, if_true]
          exact List.Forall₂.cons hR
            (List.forall₂_same.mpr (fun x _ => frameAgrees_refl x))
      | false =>
          rw [List.find?_cons_of_neg _ (by simp [hb])] at h
          simp only [updateFirst, hb, Bool.false_eq_true, if_false]
          exact List.Forall₂.cons (frameAgrees_refl b)
            (updateFirst_forall2 hR t h)

/-- C6: under the uniqueness index (at most one record per tuple), toggling
the same (user, roadmap, topic) twice in sequence through markComplete
returns the completion state to its value before the first call, and
afterwards exactly one ProgressRecord exists for that tuple — the second
call updated in place rather than inserting a duplicate. -/
theorem c6_double_toggle (store : List ProgressRecord) (u rid tid : Nat)
    (s1 s2 : String) (n1 n2 : Nat)
    (huniq : (store.filter (progressKeyMatch u rid tid)).length ≤ 1) :
    completionState
        (markComplete ((markComplete store u rid tid s1 n1).2)
          u rid tid s2 n2).2 u rid tid
      = completionState store u rid tid ∧
    (((markComplete ((markComplete store u rid tid s1 n1).2)
        u rid tid s2 n2).2).filter (progressKeyMatch u rid tid)).length
      = 1 := by
  cases h : store.find? (progressKeyMatch u rid tid) with
  | none =>
      have hm1 : (markComplete store u rid tid s1 n1).2 =
          store ++ [freshRecord u rid tid s1 n1] := by
        simp [markComplete, h]
      have hkey : progressKeyMatch u rid tid (freshRecord u rid tid s1 n1)
          = true := freshRecord_key u rid tid s1 n1
      have hfind1 : (store ++ [freshRecord u rid tid s1 n1]).find?
          (progressKeyMatch u rid tid) = some (freshRecord u rid tid s1 n1) :=
        find?_append_singleton_none h hkey
      have hkey2 : progressKeyMatch u rid tid
          (toggleRecord n2 (freshRecord u rid tid s1 n1)) = true := by
        rw [keyMatch_eq_of_frame u rid tid (toggleRecord_frame n2 _).1]
        exact hkey
      have hm2 : (markComplete (store ++ [freshRecord u rid tid s1 n1])
          u rid tid s2 n2).2 =
          updateFirst (progressKeyMatch u rid tid)
            (toggleRecord n2 (freshRecord u rid tid s1 n1))
            (store ++ [freshRecord u rid tid s1 n1]) := by
        simp [markComplete, hfind1]
      have hfind2 := find?_updateFirst hkey2 _ _ hfind1
      constructor
      · rw [hm1, hm2]
        unfold completionState
        rw [hfind2, h]
        show (toggleRecord n2 (freshRecord u rid tid s1 n1)).completed = false
        rw [(toggleRecord_frame n2 _).2, freshRecord_completed u rid tid s1 n1]
        rfl
      · rw [hm1, hm2, updateFirst_filter_length hkey2 _ _ hfind1,
          List.filter_append, filter_eq_nil_of_find?_none h,
          List.filter_cons_of_pos hkey]
        rfl
  | some p =>
      have hp : progressKeyMatch u rid tid p = true := List.find?_some h
      have hm1 : (markComplete store u rid tid s1 n1).2 =
          updateFirst (progressKeyMatch u rid tid) (toggleRecord n1 p)
            store := by
        simp [markComplete, h]
      have hk1 : progressKeyMatch u rid tid (toggleRecord n1 p) = true := by
        rw [keyMatch_eq_of_frame u rid tid (toggleRecord_frame n1 p).1]
        exact hp
      have hfind1 := find?_updateFirst hk1 store p h
      have hk2 : progressKeyMatch u rid tid
          (toggleRecord n2 (toggleRecord n1 p)) = true := by
        rw [keyMatch_eq_of_frame u rid tid (toggleRecord_frame n2 _).1]
        exact hk1
      have hm2 : (markComplete (updateFirst (progressKeyMatch u rid tid)
          (toggleRecord n1 p) store) u rid tid s2 n2).2 =
          updateFirst (progressKeyMatch u rid tid)
            (toggleRecord n2 (toggleRecord n1 p))
            (updateFirst (progressKeyMatch u rid tid)
              (toggleRecord n1 p) store) := by
        simp [markComplete, hfind1]
      have hfind2 := find?_updateFirst hk2 _ _ hfind1
      constructor
      · rw [hm1, hm2]
        unfold completionState
        rw [hfind2, h]
        show (toggleRecord n2 (toggleRecord n1 p)).completed = p.completed
        rw [(toggleRecord_frame n2 _).2, (toggleRecord_frame n1 p).2,
          Bool.not_not]
      · rw [hm1, hm2, updateFirst_filter_length hk2 _ _ hfind1,
          updateFirst_filter_length hk1 _ _ h]
        have := find?_some_filter_pos h
        omega

/-- C6 witness: a double toggle starting from the empty store returns the
tuple to not-completed and leaves exactly one record. -/
theorem c6_double_toggle_witness :
    completionState
        (markComplete ((markComplete [] 1 2 3 "dp_01" 4).2)
          1 2 3 "dp_01" 6).2 1 2 3
      = completionState [] 1 2 3 ∧
    (((markComplete ((markComplete [] 1 2 3 "dp_01" 4).2)
        1 2 3 "dp_01" 6).2).filter (progressKeyMatch 1 2 3)).length = 1 :=
  c6_double_toggle [] 1 2 3 "dp_01" "dp_01" 4 6 (by decide)

/-- C9: when a record for the tuple already exists, markComplete only
rewrites that record in place, and every record in the store keeps its
userId, roadmapId, topicId, topicIdentifier, notes, rating and timeSpent
fields — only completed and completedAt may change. -/
theorem c9_markComplete_frame (store : List ProgressRecord)
    (u rid tid : Nat) (tstr : String) (now : Nat) (p : ProgressRecord)
    (h : store.find? (progressKeyMatch u rid tid) = some p) :
    List.Forall₂ frameAgrees store
      ((markComplete store u rid tid tstr now).2) := by
  have hm : (markComplete store u rid tid tstr now).2 =
      updateFirst (progressKeyMatch u rid tid) (toggleRecord now p)
        store := by
    simp [markComplete, h]
  rw [hm]
  exact updateFirst_forall2 (toggleRecord_frame now p).1 store h

/-- C9 witness: the frame property on a one-record store holding notes,
rating and timeSpent values. -/
theorem c9_markComplete_frame_witness :
    List.Forall₂ frameAgrees [c9Rec]
      ((markComplete [c9Rec] 1 2 3 "arr_01" 9).2) :=
  c9_markComplete_frame [c9Rec] 1 2 3 "arr_01" 9 c9Rec rfl

end StudyBuddy
